import Mathlib

/-!
# weblogic-operator: the reconciliation core of `pkg/server`

A shallow embedding of `pkg/server/server.go`, `pkg/server/controller.go` and
`pkg/resources/services/service.go`.

Conventions of the embedding.

* A Go `error` is observed by the code only through `err.Error()`; it is embedded as
  its message, and a nilable `error` as `Option GoError` (`none` is `nil`).
* A Go slice that may be `nil` is `Option (List _)`; `none` is the `nil` slice.
  A Go `map[string]string` that may be `nil` is `Option (List (String × String))`.
* The servers are handled through pointers and mutated in place; every function that
  mutates its server returns the server as it stands when the function returns.
* The two API clients (`kubernetes.Interface`, `*rest.RESTClient`) are records of
  transition functions over an arbitrary cluster state `σ`; every request made through
  them is appended to `World.calls`.
* A Go result pair `(ptr, err)` of the lookup and creation functions is embedded as
  `Except`: `.error e` is `(nil, e)`, `.ok v` is `(v, nil)`; for the lookups
  `.ok none` is `(nil, nil)`.
-/

namespace Weblogic

/-- Message of a Go `error` value, the only thing the code reads from it. -/
abbrev GoError := String

/-- Go `map[string]string`; `none` is the `nil` map. -/
abbrev LabelMap := Option (List (String × String))

/-- Modelled from the spec: the declaration of `types.WeblogicServerPhase` is not among
the sources; the spec lists the phases Unknown, Pending, Running, Failed and the sources
use the constants `types.WeblogicServerUnknown`, `types.WeblogicServerPending`,
`types.WeblogicServerRunning` and `types.WeblogicServerFailed`. -/
inductive WeblogicServerPhase where
  | WeblogicServerUnknown
  | WeblogicServerPending
  | WeblogicServerRunning
  | WeblogicServerFailed
deriving DecidableEq

open WeblogicServerPhase

/-- Modelled from the spec: `types.WeblogicServerSpec` is not among the sources; the
fields are those the sources and the spec name (version string, desired replica count). -/
structure WeblogicServerSpec where
  Version : String
  Replicas : Int
deriving DecidableEq

/-- Modelled from the spec: `types.WeblogicServerStatus` is not among the sources; the
sources read and write `Status.Phase` and `Status.Errors` (a `[]string`). -/
structure WeblogicServerStatus where
  Phase : WeblogicServerPhase
  Errors : Option (List String)
deriving DecidableEq

/-- Modelled from the spec: `types.WeblogicServer` is not among the sources; the fields
are the object metadata the sources read (`Name`, `Namespace`, `ResourceVersion`,
`Labels`) together with `Spec` and `Status`. -/
structure WeblogicServer where
  Name : String
  Namespace : String
  ResourceVersion : String
  Labels : LabelMap
  Spec : WeblogicServerSpec
  Status : WeblogicServerStatus
deriving DecidableEq

/-- The part of `v1.Service` that `services.NewForServer` fills in and the code reads. -/
structure Service where
  Name : String
  Namespace : String
  Labels : LabelMap
  ServiceType : String
  Ports : List Int
  Selector : LabelMap
deriving DecidableEq

/-- The part of `v1beta1.StatefulSetStatus` the code reads (both are `int32`; the code
only compares them). -/
structure StatefulSetStatus where
  Replicas : Int
  ReadyReplicas : Int
deriving DecidableEq

/-- The part of `v1beta1.StatefulSetSpec` the spec speaks of: the desired replica count
(`Replicas`, a `*int32`; `none` is the nil pointer) and the governing service name. The
code under `pkg/server` reads neither. -/
structure StatefulSetSpec where
  Replicas : Option Int
  ServiceName : String
deriving DecidableEq

/-- The part of `v1beta1.StatefulSet` the code reads, with its spec. `Spec.Replicas` is
the desired replica count; `Status.Replicas` is the count of replicas the workload
reports as created and `Status.ReadyReplicas` the count it reports as ready. -/
structure StatefulSet where
  Name : String
  Namespace : String
  Labels : LabelMap
  Spec : StatefulSetSpec
  Status : StatefulSetStatus
deriving DecidableEq

/-- One request sent to the cluster API. -/
inductive Call where
  | putServer (ns name : String) (body : WeblogicServer)
  | listServices (ns selector : String)
  | createService (ns : String) (svc : Service)
  | deleteService (ns name : String)
  | listStatefulSets (ns selector : String)
  | createStatefulSet (ns : String) (ss : StatefulSet)
  | deleteStatefulSet (ns name : String)
deriving DecidableEq

/-- The `*rest.RESTClient` as the code uses it: a PUT of a server under
`ServerCRDResourcePlural`, yielding `result.Error()`. -/
structure RESTClient (σ : Type) where
  put : String → String → WeblogicServer → σ → Option GoError × σ

/-- The `kubernetes.Interface` as the code uses it: list, create and delete of services
(`CoreV1().Services(ns)`) and stateful sets (`AppsV1beta1().StatefulSets(ns)`). -/
structure Clientset (σ : Type) where
  listServices : String → String → σ → Except GoError (List Service) × σ
  createService : String → Service → σ → Except GoError Service × σ
  deleteService : String → String → σ → Option GoError × σ
  listStatefulSets : String → String → σ → Except GoError (List StatefulSet) × σ
  createStatefulSet : String → StatefulSet → σ → Except GoError StatefulSet × σ
  deleteStatefulSet : String → String → σ → Option GoError × σ

/-- Code of this repository that is not among the sources, taken as parameters:
`constants.WeblogicServerLabel`, `types.(*WeblogicServer).EnsureDefaults`,
`types.(*WeblogicServer).Validate` and `statefulsets.NewForServer`. -/
structure Externals where
  WeblogicServerLabel : String
  EnsureDefaults : WeblogicServer → WeblogicServer
  Validate : WeblogicServer → Option GoError
  statefulsetsNewForServer : WeblogicServer → String → StatefulSet

/-- The cluster state together with the requests issued so far, oldest first. -/
structure World (σ : Type) where
  cluster : σ
  calls : List Call

variable {σ : Type}

/-- Go `len` of a possibly nil slice. -/
def goLen (xs : Option (List String)) : Nat :=
  match xs with
  | none => 0
  | some l => l.length

/-- Go `xs[i]`, read only where `i` is in range. -/
def goIndex (xs : Option (List String)) (i : Nat) : Option String :=
  match xs with
  | none => none
  | some l => l[i]?

/-- Go `append(xs, x)`; the result is never `nil`. -/
def goAppend (xs : Option (List String)) (x : String) : Option (List String) :=
  match xs with
  | none => some [x]
  | some l => some (l ++ [x])

/-- Embeds `HasServerNameLabel` (server.go 20-31): the loop over the map answers true
at the first entry whose key is the server label and whose value is the server name. -/
def HasServerNameLabel (x : Externals) (labels : LabelMap) (servername : String) : Bool :=
  match labels with
  | none => false
  | some entries =>
    entries.any (fun kv => kv.1 == x.WeblogicServerLabel && kv.2 == servername)

/-- Embeds `getLabelSelectorForServer` (server.go 33-36): `fmt.Sprintf("%s=%s", ..)`. -/
def getLabelSelectorForServer (x : Externals) (server : WeblogicServer) : String :=
  x.WeblogicServerLabel ++ "=" ++ server.Name

/-- Go `m[k] = v` on a non-nil map: the entry for `k` is replaced or added. -/
def mapSet (m : List (String × String)) (k v : String) : List (String × String) :=
  (k, v) :: m.filter (fun kv => kv.1 != k)

/-- Embeds `services.NewForServer` (service.go 10-28). -/
def servicesNewForServer (x : Externals) (server : WeblogicServer) : Service :=
  let weblogicPort : Int := 7001
  { Labels := some [(x.WeblogicServerLabel, server.Name)]
    Name := server.Name
    Namespace := server.Namespace
    ServiceType := "NodePort"
    Ports := [weblogicPort]
    Selector := some [(x.WeblogicServerLabel, server.Name)] }

/-- The request `restClient.Put().Resource(..).Namespace(ns).Name(name).Body(server).Do()`,
yielding `result.Error()`. -/
def doPut (rest : RESTClient σ) (server : WeblogicServer) (w : World σ) :
    Option GoError × World σ :=
  let r := rest.put server.Namespace server.Name server w.cluster
  (r.1, { cluster := r.2, calls := w.calls ++ [Call.putServer server.Namespace server.Name server] })

/-- The request `clientset.CoreV1().Services(ns).List(opts)`. -/
def doListServices (kube : Clientset σ) (ns selector : String) (w : World σ) :
    Except GoError (List Service) × World σ :=
  let r := kube.listServices ns selector w.cluster
  (r.1, { cluster := r.2, calls := w.calls ++ [Call.listServices ns selector] })

/-- The request `clientset.CoreV1().Services(ns).Create(svc)`. -/
def doCreateService (kube : Clientset σ) (ns : String) (svc : Service) (w : World σ) :
    Except GoError Service × World σ :=
  let r := kube.createService ns svc w.cluster
  (r.1, { cluster := r.2, calls := w.calls ++ [Call.createService ns svc] })

/-- The request `clientset.CoreV1().Services(ns).Delete(name, nil)`. -/
def doDeleteService (kube : Clientset σ) (ns name : String) (w : World σ) :
    Option GoError × World σ :=
  let r := kube.deleteService ns name w.cluster
  (r.1, { cluster := r.2, calls := w.calls ++ [Call.deleteService ns name] })

/-- The request `kubeClient.AppsV1beta1().StatefulSets(ns).List(opts)`. -/
def doListStatefulSets (kube : Clientset σ) (ns selector : String) (w : World σ) :
    Except GoError (List StatefulSet) × World σ :=
  let r := kube.listStatefulSets ns selector w.cluster
  (r.1, { cluster := r.2, calls := w.calls ++ [Call.listStatefulSets ns selector] })

/-- The request `clientset.AppsV1beta1().StatefulSets(ns).Create(ss)`. -/
def doCreateStatefulSet (kube : Clientset σ) (ns : String) (ss : StatefulSet) (w : World σ) :
    Except GoError StatefulSet × World σ :=
  let r := kube.createStatefulSet ns ss w.cluster
  (r.1, { cluster := r.2, calls := w.calls ++ [Call.createStatefulSet ns ss] })

/-- The request `clientset.AppsV1beta1().StatefulSets(ns).Delete(name, opts)` with
background propagation. -/
def doDeleteStatefulSet (kube : Clientset σ) (ns name : String) (w : World σ) :
    Option GoError × World σ :=
  let r := kube.deleteStatefulSet ns name w.cluster
  (r.1, { cluster := r.2, calls := w.calls ++ [Call.deleteStatefulSet ns name] })

/-- Embeds `GetStatefulSetForWeblogicServer` (server.go 38-53): list by selector, then
the first item that passes `HasServerNameLabel`; `.ok none` is the result `nil, nil`. -/
def GetStatefulSetForWeblogicServer (x : Externals) (kube : Clientset σ)
    (server : WeblogicServer) (w : World σ) : Except GoError (Option StatefulSet) × World σ :=
  let r := doListStatefulSets kube server.Namespace (getLabelSelectorForServer x server) w
  match r.1 with
  | .error err => (.error err, r.2)
  | .ok items => (.ok (items.find? (fun ss => HasServerNameLabel x ss.Labels server.Name)), r.2)

/-- Embeds `CreateStatefulSetForWeblogicServer` (server.go 55-74). -/
def CreateStatefulSetForWeblogicServer (x : Externals) (kube : Clientset σ)
    (server : WeblogicServer) (service : Service) (w : World σ) :
    Except GoError StatefulSet × World σ :=
  let r := GetStatefulSetForWeblogicServer x kube server w
  match r.1 with
  | .error err => (.error err, r.2)
  | .ok (some existingStatefulSet) => (.ok existingStatefulSet, r.2)
  | .ok none =>
    let ss := x.statefulsetsNewForServer server service.Name
    doCreateStatefulSet kube server.Namespace ss r.2

/-- Embeds `DeleteStatefulSetForWeblogicServer` (server.go 77-89). The guard
`err != nil || statefulSet == nil` returns `err`, which is `nil` when the lookup succeeded
and found nothing. -/
def DeleteStatefulSetForWeblogicServer (x : Externals) (kube : Clientset σ)
    (server : WeblogicServer) (w : World σ) : Option GoError × World σ :=
  let r := GetStatefulSetForWeblogicServer x kube server w
  match r.1 with
  | .error err => (some err, r.2)
  | .ok none => (none, r.2)
  | .ok (some statefulSet) => doDeleteStatefulSet kube server.Namespace statefulSet.Name r.2

/-- Embeds `GetServiceForWeblogicServer` (server.go 154-169). -/
def GetServiceForWeblogicServer (x : Externals) (kube : Clientset σ)
    (server : WeblogicServer) (w : World σ) : Except GoError (Option Service) × World σ :=
  let r := doListServices kube server.Namespace (getLabelSelectorForServer x server) w
  match r.1 with
  | .error err => (.error err, r.2)
  | .ok items => (.ok (items.find? (fun svc => HasServerNameLabel x svc.Labels server.Name)), r.2)

/-- Embeds `CreateServiceForWeblogicServer` (server.go 171-189). -/
def CreateServiceForWeblogicServer (x : Externals) (kube : Clientset σ)
    (server : WeblogicServer) (w : World σ) : Except GoError Service × World σ :=
  let r := GetServiceForWeblogicServer x kube server w
  match r.1 with
  | .error err => (.error err, r.2)
  | .ok (some existingService) => (.ok existingService, r.2)
  | .ok none =>
    let svc := servicesNewForServer x server
    doCreateService kube server.Namespace svc r.2

/-- Embeds `DeleteServiceForWeblogicServer` (server.go 191-200). -/
def DeleteServiceForWeblogicServer (x : Externals) (kube : Clientset σ)
    (server : WeblogicServer) (w : World σ) : Option GoError × World σ :=
  let r := GetServiceForWeblogicServer x kube server w
  match r.1 with
  | .error err => (some err, r.2)
  | .ok none => (none, r.2)
  | .ok (some service) => doDeleteService kube server.Namespace service.Name r.2

/-- Embeds `updateWeblogicServer` (server.go 122-131). -/
def updateWeblogicServer (rest : RESTClient σ) (server : WeblogicServer) (w : World σ) :
    Option GoError × World σ :=
  doPut rest server w

/-- Embeds `createWeblogicServer` (server.go 91-120). Returns the returned error, the
server as mutated, and the world. -/
def createWeblogicServer (x : Externals) (kube : Clientset σ) (rest : RESTClient σ)
    (server : WeblogicServer) (w : World σ) : Option GoError × WeblogicServer × World σ :=
  let server := x.EnsureDefaults server
  match x.Validate server with
  | some err => (some err, server, w)
  | none =>
    if !HasServerNameLabel x server.Labels server.Name then
      let labels : List (String × String) :=
        match server.Labels with
        | none => []
        | some m => m
      let server := { server with Labels := some (mapSet labels x.WeblogicServerLabel server.Name) }
      let r := updateWeblogicServer rest server w
      (r.1, server, r.2)
    else
      let r := CreateServiceForWeblogicServer x kube server w
      match r.1 with
      | .error err => (some err, server, r.2)
      | .ok serverService =>
        let r2 := CreateStatefulSetForWeblogicServer x kube server serverService r.2
        match r2.1 with
        | .error err => (some err, server, r2.2)
        | .ok _ => (none, server, r2.2)

/-- Embeds `deleteWeblogicServer` (server.go 135-152). -/
def deleteWeblogicServer (x : Externals) (kube : Clientset σ)
    (server : WeblogicServer) (w : World σ) : Option GoError × World σ :=
  match x.Validate server with
  | some err => (some err, w)
  | none =>
    let r := DeleteStatefulSetForWeblogicServer x kube server w
    match r.1 with
    | some err => (some err, r.2)
    | none =>
      let r2 := DeleteServiceForWeblogicServer x kube server r.2
      match r2.1 with
      | some err => (some err, r2.2)
      | none => (none, r2.2)

/-- Embeds `setWeblogicServerState` (server.go 216-245). Returns the returned error, the
server as mutated, and the world. -/
def setWeblogicServerState (rest : RESTClient σ) (server : WeblogicServer)
    (phase : WeblogicServerPhase) (err : Option GoError) (w : World σ) :
    Option GoError × WeblogicServer × World σ :=
  let modified0 := false
  -- if server.Status.Phase != phase { server.Status.Phase = phase; modified = true }
  let phaseDiffers : Bool := server.Status.Phase != phase
  let server1 : WeblogicServer :=
    if phaseDiffers then { server with Status := { server.Status with Phase := phase } } else server
  let modified1 := if phaseDiffers then true else modified0
  let l := goLen server1.Status.Errors
  -- err != nil && (l < 1 || server.Status.Errors[l-1] != err.Error())
  let appendIt : Bool :=
    match err with
    | some msg => decide (l < 1) || (goIndex server1.Status.Errors (l - 1) != some msg)
    | none => false
  let errors2 : Option (List String) :=
    if appendIt then goAppend server1.Status.Errors (err.getD "")
    else if l == 0 then some []
    else server1.Status.Errors
  let modified2 := if appendIt then true else if l == 0 then true else modified1
  let server2 : WeblogicServer := { server1 with Status := { server1.Status with Errors := errors2 } }
  if modified2 then
    let r := doPut rest server2 w
    (r.1, server2, r.2)
  else
    (none, server2, w)

/-- Embeds `updateServerWithStatefulSet` (server.go 247-261). The named result `err` is
never assigned; the results of the two `setWeblogicServerState` calls are dropped. -/
def updateServerWithStatefulSet (rest : RESTClient σ) (server : WeblogicServer)
    (statefulSet : StatefulSet) (w : World σ) : Option GoError × WeblogicServer × World σ :=
  let err : Option GoError := none
  if statefulSet.Status.ReadyReplicas < statefulSet.Status.Replicas then
    let r := setWeblogicServerState rest server WeblogicServerPending none w
    (err, r.2.1, r.2.2)
  else if statefulSet.Status.ReadyReplicas == statefulSet.Status.Replicas then
    let r := setWeblogicServerState rest server WeblogicServerRunning none w
    (err, r.2.1, r.2.2)
  else
    (err, server, w)

/-- Embeds `WeblogicController.onAdd` (controller.go 87-96). The handler has no result;
the error of the status write is assigned and dropped. Returns the server as mutated and
the world. -/
def onAdd (x : Externals) (kube : Clientset σ) (rest : RESTClient σ)
    (obj : WeblogicServer) (w : World σ) : WeblogicServer × World σ :=
  let r := createWeblogicServer x kube rest obj w
  match r.1 with
  | some err =>
    let r2 := setWeblogicServerState rest r.2.1 WeblogicServerFailed (some err) r.2.2
    (r2.2.1, r2.2.2)
  | none => (r.2.1, r.2.2)

/-- Embeds `WeblogicController.onDelete` (controller.go 98-107). -/
def onDelete (x : Externals) (kube : Clientset σ) (rest : RESTClient σ)
    (obj : WeblogicServer) (w : World σ) : WeblogicServer × World σ :=
  let r := deleteWeblogicServer x kube obj w
  match r.1 with
  | some err =>
    let r2 := setWeblogicServerState rest obj WeblogicServerFailed (some err) r.2
    (r2.2.1, r2.2.2)
  | none => (obj, r.2)

/-- Embeds `WeblogicController.onUpdate` (controller.go 109-125). Returns the current
server as mutated and the world. -/
def onUpdate (x : Externals) (kube : Clientset σ) (rest : RESTClient σ)
    (old cur : WeblogicServer) (w : World σ) : WeblogicServer × World σ :=
  if cur.ResourceVersion == old.ResourceVersion then
    (cur, w)
  else
    let r := createWeblogicServer x kube rest cur w
    match r.1 with
    | some err =>
      let r2 := setWeblogicServerState rest r.2.1 WeblogicServerFailed (some err) r.2.2
      (r2.2.1, r2.2.2)
    | none => (r.2.1, r.2.2)

/-! ## An explicit cluster state

An in-memory cluster whose list and create requests always succeed. A list answers the
stored objects of the namespace whose labels satisfy the selector, in insertion order; a
create stores the object under the namespace of the request and answers the stored
object. -/

/-- The stored endpoint and workload resources. -/
structure Cluster where
  services : List Service
  statefulSets : List StatefulSet
deriving DecidableEq

/-- A selector of the form `key=value` is satisfied by a label map holding that entry. -/
def selectorMatches (selector : String) (labels : LabelMap) : Bool :=
  match labels with
  | none => false
  | some entries => entries.any (fun kv => kv.1 ++ "=" ++ kv.2 == selector)

/-- The in-memory `kubernetes.Interface`. -/
def memoryClientset : Clientset Cluster where
  listServices ns selector c :=
    (.ok (c.services.filter (fun s => s.Namespace == ns && selectorMatches selector s.Labels)), c)
  createService ns svc c :=
    (.ok { svc with Namespace := ns }, { c with services := c.services ++ [{ svc with Namespace := ns }] })
  deleteService ns name c :=
    (none, { c with services := c.services.filter (fun s => !(s.Namespace == ns && s.Name == name)) })
  listStatefulSets ns selector c :=
    (.ok (c.statefulSets.filter (fun s => s.Namespace == ns && selectorMatches selector s.Labels)), c)
  createStatefulSet ns ss c :=
    (.ok { ss with Namespace := ns }, { c with statefulSets := c.statefulSets ++ [{ ss with Namespace := ns }] })
  deleteStatefulSet ns name c :=
    (none, { c with statefulSets := c.statefulSets.filter (fun s => !(s.Namespace == ns && s.Name == name)) })

/-- A REST client whose every PUT succeeds. -/
def acceptingRESTClient : RESTClient Cluster where
  put _ _ _ c := (none, c)

/-- A REST client whose every PUT is rejected with the given error, as on a
resource-version conflict. -/
def rejectingRESTClient (e : GoError) : RESTClient Cluster where
  put _ _ _ c := (some e, c)

/-- Number of stored services in the server's namespace that carry the server's label. -/
def countServices (x : Externals) (server : WeblogicServer) (c : Cluster) : Nat :=
  (c.services.filter
    (fun s => s.Namespace == server.Namespace && HasServerNameLabel x s.Labels server.Name)).length

/-- Number of stored stateful sets in the server's namespace that carry the server's
label. -/
def countStatefulSets (x : Externals) (server : WeblogicServer) (c : Cluster) : Nat :=
  (c.statefulSets.filter
    (fun s => s.Namespace == server.Namespace && HasServerNameLabel x s.Labels server.Name)).length

/-! ## Notions the claims are stated with -/

/-- The last entry of a possibly nil log. -/
def lastEntry (xs : Option (List String)) : Option String :=
  match xs with
  | none => none
  | some l => l.getLast?

/-- The condition under which the spec says `setWeblogicServerState` changes nothing:
the phase is the current one and either no error comes with an error log that has an
entry, or the error that comes has the message of the last entry. -/
def noVisibleChange (server : WeblogicServer) (phase : WeblogicServerPhase)
    (err : Option GoError) : Prop :=
  phase = server.Status.Phase ∧
    ((err = none ∧ 1 ≤ goLen server.Status.Errors) ∨
      (∃ msg, err = some msg ∧ lastEntry server.Status.Errors = some msg))

/-- The steps of `createWeblogicServer` that follow its validation and label gates
(server.go 109-119): `CreateServiceForWeblogicServer`, then on success
`CreateStatefulSetForWeblogicServer` with the service obtained. Used to state that a call
gets past the gates. -/
def createDependents (x : Externals) (kube : Clientset σ) (server : WeblogicServer)
    (w : World σ) : Option GoError × WeblogicServer × World σ :=
  let r := CreateServiceForWeblogicServer x kube server w
  match r.1 with
  | .error err => (some err, server, r.2)
  | .ok serverService =>
    let r2 := CreateStatefulSetForWeblogicServer x kube server serverService r.2
    match r2.1 with
    | .error err => (some err, server, r2.2)
    | .ok _ => (none, server, r2.2)

/-! ## Sample data -/

/-- A defaulting function of the shape the spec describes: version and replica count are
filled in when unset. -/
def sampleEnsureDefaults (server : WeblogicServer) : WeblogicServer :=
  let server :=
    if server.Spec.Replicas == 0 then
      { server with Spec := { server.Spec with Replicas := 1 } }
    else server
  if server.Spec.Version == "" then
    { server with Spec := { server.Spec with Version := "12.2.1.2" } }
  else server

/-- Sample values for the parts that are not among the sources; validation accepts every
server and the stateful-set template carries the server label. -/
def sampleExternals : Externals where
  WeblogicServerLabel := "server-label"
  EnsureDefaults := sampleEnsureDefaults
  Validate := fun _ => none
  statefulsetsNewForServer := fun server serviceName =>
    { Name := server.Name
      Namespace := server.Namespace
      Labels := some [("server-label", server.Name)]
      Spec := { Replicas := some server.Spec.Replicas, ServiceName := serviceName }
      Status := { Replicas := 0, ReadyReplicas := 0 } }

/-- As `sampleExternals`, with a validation that rejects every server. -/
def strictExternals : Externals :=
  { sampleExternals with Validate := fun _ => some "spec.version: Invalid value" }

/-- A freshly declared server: no label, no status. -/
def web1 : WeblogicServer where
  Name := "web1"
  Namespace := "default"
  ResourceVersion := "1"
  Labels := none
  Spec := { Version := "", Replicas := 1 }
  Status := { Phase := WeblogicServerUnknown, Errors := none }

/-- The empty cluster with no request issued. -/
def emptyWorld : World Cluster where
  cluster := { services := [], statefulSets := [] }
  calls := []

/-- A stateful set of `web1` that reports no ready replica of one. -/
def startingSet : StatefulSet where
  Name := "web1"
  Namespace := "default"
  Labels := some [("server-label", "web1")]
  Spec := { Replicas := some 1, ServiceName := "web1" }
  Status := { Replicas := 1, ReadyReplicas := 0 }

/-- A stateful set of `web1` with no replica at all. -/
def idleSet : StatefulSet where
  Name := "web1"
  Namespace := "default"
  Labels := some [("server-label", "web1")]
  Spec := { Replicas := some 0, ServiceName := "web1" }
  Status := { Replicas := 0, ReadyReplicas := 0 }

/-- The stateful set of `web1` as it stands right after its creation: one replica is
desired, none is created yet and none is ready. -/
def freshSet : StatefulSet where
  Name := "web1"
  Namespace := "default"
  Labels := some [("server-label", "web1")]
  Spec := { Replicas := some 1, ServiceName := "web1" }
  Status := { Replicas := 0, ReadyReplicas := 0 }

/-- The snapshot of `web1` the platform holds after a change: a later resource version. -/
def web1Changed : WeblogicServer :=
  { web1 with ResourceVersion := "2" }

/-- A cluster that already holds two services carrying the label of `web1`. -/
def crowdedWorld : World Cluster where
  cluster :=
    { services :=
        [{ servicesNewForServer sampleExternals web1 with Name := "web1-a" },
          { servicesNewForServer sampleExternals web1 with Name := "web1-b" }]
      statefulSets := [] }
  calls := []

/-! ## The domain type (`pkg/types/domain.go`) -/

/-- Embeds the constant `defaultDomainVersion` (domain.go 16). -/
def defaultDomainVersion : String := "12.2.1.2"

/-- Embeds the constant `defaultDomainReplicas` (domain.go 17). -/
def defaultDomainReplicas : Int := 1

/-- Embeds the constant `defaultDomainManagedServerCount` (domain.go 18). -/
def defaultDomainManagedServerCount : Int := 1

/-- Embeds the struct `Server` (domain.go 21-26); `Port` is an `int32`. -/
structure Server where
  Host : String
  ServerName : String
  PodName : String
  Port : Int
deriving DecidableEq

/-- Embeds the struct `WebLogicDomainSpec` (domain.go 29-42). `ManagedServerCount` is a
Go `int` and `Replicas` an `int32`; the code compares them with constants and assigns
constants to them, so no arithmetic can overflow. -/
structure WebLogicDomainSpec where
  Version : String
  ManagedServerCount : Int
  ServersAvailable : Option (List Server)
  ServersRunning : Option (List Server)
  Replicas : Int
  NodeSelector : LabelMap
deriving DecidableEq

/-- Embeds the struct `WebLogicDomain` (domain.go 45-49), with the fields of the embedded
`metav1.TypeMeta` (`Kind`, `APIVersion`) and of `metav1.ObjectMeta` that the repository
reads. -/
structure WebLogicDomain where
  Kind : String
  APIVersion : String
  Name : String
  Namespace : String
  ResourceVersion : String
  Labels : LabelMap
  Spec : WebLogicDomainSpec
deriving DecidableEq

/-- Embeds `WebLogicDomain.EnsureDefaults` (domain.go 61-75). The method mutates its
receiver and returns the receiver pointer; the value here is the receiver as it stands on
return, which is also what the returned pointer refers to. -/
def WebLogicDomain.EnsureDefaults (c : WebLogicDomain) : WebLogicDomain :=
  -- if c.Spec.ManagedServerCount == 0 { c.Spec.ManagedServerCount = default }
  let c : WebLogicDomain :=
    if c.Spec.ManagedServerCount == 0 then
      { c with Spec := { c.Spec with ManagedServerCount := defaultDomainManagedServerCount } }
    else c
  -- if c.Spec.Replicas == 0 || c.Spec.Replicas > 1 { c.Spec.Replicas = default }
  let c : WebLogicDomain :=
    if c.Spec.Replicas == 0 || decide (c.Spec.Replicas > 1) then
      { c with Spec := { c.Spec with Replicas := defaultDomainReplicas } }
    else c
  -- if c.Spec.Version == "" { c.Spec.Version = default }
  let c : WebLogicDomain :=
    if c.Spec.Version == "" then
      { c with Spec := { c.Spec with Version := defaultDomainVersion } }
    else c
  c

/-- A domain declared with version "12.2.1.3", two managed servers and three replicas. -/
def scaledDomain : WebLogicDomain where
  Kind := "WebLogicDomain"
  APIVersion := "weblogic.oracle.com/v1"
  Name := "domain1"
  Namespace := "default"
  ResourceVersion := "1"
  Labels := none
  Spec :=
    { Version := "12.2.1.3"
      ManagedServerCount := 2
      ServersAvailable := none
      ServersRunning := none
      Replicas := 3
      NodeSelector := none }

/-! # Theorems -/

/-! ## The status state machine -/

/-- The entry at index `len - 1` is the last entry. -/
theorem goIndex_last (xs : Option (List String)) :
    goIndex xs (goLen xs - 1) = lastEntry xs := by
  cases xs with
  | none => rfl
  | some l => simp [goIndex, goLen, lastEntry, List.getLast?_eq_getElem?]

/-- A log with a last entry has an entry. -/
theorem lastEntry_some_len (xs : Option (List String)) (m : String)
    (h : lastEntry xs = some m) : 1 ≤ goLen xs := by
  cases xs with
  | none => simp [lastEntry] at h
  | some l =>
    cases l with
    | nil => simp [lastEntry] at h
    | cons a t => simp [goLen]

/-- A log of length zero has no last entry. -/
theorem lastEntry_none_of_len (xs : Option (List String)) (h : goLen xs = 0) :
    lastEntry xs = none := by
  cases xs with
  | none => rfl
  | some l =>
    cases l with
    | nil => rfl
    | cons a t => simp [goLen] at h

/-- The error log with which `setWeblogicServerState` leaves the server. -/
theorem setWeblogicServerState_errors (rest : RESTClient σ) (server : WeblogicServer)
    (phase : WeblogicServerPhase) (err : Option GoError) (w : World σ) :
    (setWeblogicServerState rest server phase err w).2.1.Status.Errors =
      match err with
      | some msg =>
        if lastEntry server.Status.Errors = some msg then server.Status.Errors
        else goAppend server.Status.Errors msg
      | none => if goLen server.Status.Errors = 0 then some [] else server.Status.Errors := by
  unfold setWeblogicServerState
  cases err with
  | none =>
    by_cases hp : server.Status.Phase = phase <;>
      by_cases hl : goLen server.Status.Errors = 0 <;> simp [hp, hl]
  | some msg =>
    by_cases hm : lastEntry server.Status.Errors = some msg
    · have hlen := lastEntry_some_len _ _ hm
      have hl : goLen server.Status.Errors ≠ 0 := by omega
      have hl1 : ¬ goLen server.Status.Errors < 1 := by omega
      by_cases hp : server.Status.Phase = phase <;> simp [hp, hl, hm, goIndex_last]
    · by_cases hp : server.Status.Phase = phase <;>
        by_cases hl : goLen server.Status.Errors = 0 <;>
        simp [hp, hl, hm, goIndex_last]

/-- The phase with which `setWeblogicServerState` leaves the server is the requested one. -/
theorem setWeblogicServerState_phase (rest : RESTClient σ) (server : WeblogicServer)
    (phase : WeblogicServerPhase) (err : Option GoError) (w : World σ) :
    (setWeblogicServerState rest server phase err w).2.1.Status.Phase = phase := by
  unfold setWeblogicServerState
  by_cases hp : server.Status.Phase = phase
  · simp [hp]
    split <;> simp
  · simp [hp]

/-- Outside the status, `setWeblogicServerState` leaves the server as it was. -/
theorem setWeblogicServerState_frame (rest : RESTClient σ) (server : WeblogicServer)
    (phase : WeblogicServerPhase) (err : Option GoError) (w : World σ) :
    (setWeblogicServerState rest server phase err w).2.1 =
      { server with Status := (setWeblogicServerState rest server phase err w).2.1.Status } := by
  unfold setWeblogicServerState
  by_cases hp : server.Status.Phase = phase
  · simp [hp]
    split <;> simp
  · simp [hp]

/-- Under `noVisibleChange` the call returns nil and leaves server and world as they were. -/
theorem setWeblogicServerState_noop (rest : RESTClient σ) (server : WeblogicServer)
    (phase : WeblogicServerPhase) (err : Option GoError) (w : World σ)
    (h : noVisibleChange server phase err) :
    setWeblogicServerState rest server phase err w = (none, server, w) := by
  obtain ⟨hp, h⟩ := h
  rcases h with ⟨he, hl⟩ | ⟨msg, he, hm⟩
  · subst he
    have hl0 : goLen server.Status.Errors ≠ 0 := by omega
    unfold setWeblogicServerState
    simp [hp, hl0]
  · subst he
    have hlen := lastEntry_some_len _ _ hm
    have hl0 : goLen server.Status.Errors ≠ 0 := by omega
    have hl1 : ¬ goLen server.Status.Errors < 1 := by omega
    unfold setWeblogicServerState
    simp [hp, hl0, hl1, hm, goIndex_last]

/-- Outside `noVisibleChange` the call is the PUT of the mutated server. -/
theorem setWeblogicServerState_write (rest : RESTClient σ) (server : WeblogicServer)
    (phase : WeblogicServerPhase) (err : Option GoError) (w : World σ)
    (h : ¬ noVisibleChange server phase err) :
    setWeblogicServerState rest server phase err w =
      ((doPut rest (setWeblogicServerState rest server phase err w).2.1 w).1,
        (setWeblogicServerState rest server phase err w).2.1,
        (doPut rest (setWeblogicServerState rest server phase err w).2.1 w).2) := by
  unfold noVisibleChange at h
  unfold setWeblogicServerState
  by_cases hp : server.Status.Phase = phase
  · cases err with
    | none =>
      have hl0 : goLen server.Status.Errors = 0 := by
        by_contra hc
        exact h ⟨hp.symm, Or.inl ⟨rfl, by omega⟩⟩
      simp [hp, hl0]
    | some msg =>
      have hm : lastEntry server.Status.Errors ≠ some msg := by
        intro hc
        exact h ⟨hp.symm, Or.inr ⟨msg, rfl, hc⟩⟩
      simp [hp, hm, goIndex_last]
  · simp [hp]

/-- The last entry after an append is the appended one. -/
theorem lastEntry_goAppend (xs : Option (List String)) (m : String) :
    lastEntry (goAppend xs m) = some m := by
  cases xs with
  | none => rfl
  | some l => simp [goAppend, lastEntry]

/-- After a call that carries an error, the last entry of the log is its message. -/
theorem setWeblogicServerState_last (rest : RESTClient σ) (server : WeblogicServer)
    (phase : WeblogicServerPhase) (msg : GoError) (w : World σ) :
    lastEntry (setWeblogicServerState rest server phase (some msg) w).2.1.Status.Errors =
      some msg := by
  rw [setWeblogicServerState_errors]
  by_cases hm : lastEntry server.Status.Errors = some msg
  · simp [hm]
  · simp [hm, lastEntry_goAppend]

/-- The requests of `setWeblogicServerState` come after those already issued. -/
theorem setWeblogicServerState_calls (rest : RESTClient σ) (server : WeblogicServer)
    (phase : WeblogicServerPhase) (err : Option GoError) (w : World σ) :
    ∃ tail, (setWeblogicServerState rest server phase err w).2.2.calls = w.calls ++ tail := by
  by_cases h : noVisibleChange server phase err
  · exact ⟨[], by rw [setWeblogicServerState_noop rest server phase err w h]; simp⟩
  · refine ⟨[Call.putServer server.Namespace server.Name
      (setWeblogicServerState rest server phase err w).2.1], ?_⟩
    rw [setWeblogicServerState_write rest server phase err w h]
    rw [setWeblogicServerState_frame]
    simp [doPut]

/-- C1. `setWeblogicServerState` issues no request and returns nil exactly when the
requested phase is the current one and either the error is nil with a log that has an
entry, or the error is present with the message of the last log entry; then the world is
left as it was. In every other case it issues exactly one request, the PUT of the server
as mutated, and returns the result of that PUT. -/
theorem setWeblogicServerState_write_iff (rest : RESTClient σ) (server : WeblogicServer)
    (phase : WeblogicServerPhase) (err : Option GoError) (w : World σ) :
    (((setWeblogicServerState rest server phase err w).2.2.calls = w.calls ∧
        (setWeblogicServerState rest server phase err w).1 = none) ↔
      noVisibleChange server phase err) ∧
    ((noVisibleChange server phase err ∧
        (setWeblogicServerState rest server phase err w).2.2 = w) ∨
      (¬ noVisibleChange server phase err ∧
        (setWeblogicServerState rest server phase err w).2.2.calls =
          w.calls ++ [Call.putServer server.Namespace server.Name
            (setWeblogicServerState rest server phase err w).2.1] ∧
        (setWeblogicServerState rest server phase err w).1 =
          (rest.put server.Namespace server.Name
            (setWeblogicServerState rest server phase err w).2.1 w.cluster).1 ∧
        (setWeblogicServerState rest server phase err w).2.2.cluster =
          (rest.put server.Namespace server.Name
            (setWeblogicServerState rest server phase err w).2.1 w.cluster).2)) := by
  by_cases h : noVisibleChange server phase err
  · have e := setWeblogicServerState_noop rest server phase err w h
    refine ⟨?_, Or.inl ⟨h, by rw [e]⟩⟩
    constructor
    · intro _; exact h
    · intro _; rw [e]; exact ⟨rfl, rfl⟩
  · have e := setWeblogicServerState_write rest server phase err w h
    have f := setWeblogicServerState_frame rest server phase err w
    have hc : (setWeblogicServerState rest server phase err w).2.2.calls =
        w.calls ++ [Call.putServer server.Namespace server.Name
          (setWeblogicServerState rest server phase err w).2.1] := by
      conv_lhs => rw [e]
      rw [f]
      simp [doPut]
    refine ⟨?_, Or.inr ⟨h, hc, ?_, ?_⟩⟩
    · constructor
      · intro hh
        have := hh.1
        rw [hc] at this
        simp at this
      · intro hh; exact absurd hh h
    · conv_lhs => rw [e]
      rw [f]
      simp [doPut]
    · conv_lhs => rw [e]
      rw [f]
      simp [doPut]

/-- C3. From a server whose error log is empty, two calls in succession with the same
error message leave the log with that one message, and two calls with distinct messages
m1 then m2 leave the log m1, m2; and a call whose message is the last log entry leaves
the log as it was. -/
theorem setWeblogicServerState_dedup (rest : RESTClient σ) (server : WeblogicServer)
    (p1 p2 : WeblogicServerPhase) (m1 m2 : GoError) (w : World σ)
    (hempty : goLen server.Status.Errors = 0) :
    (setWeblogicServerState rest
        (setWeblogicServerState rest server p1 (some m1) w).2.1 p2 (some m1)
        (setWeblogicServerState rest server p1 (some m1) w).2.2).2.1.Status.Errors
      = some [m1] ∧
    (m1 ≠ m2 →
      (setWeblogicServerState rest
          (setWeblogicServerState rest server p1 (some m1) w).2.1 p2 (some m2)
          (setWeblogicServerState rest server p1 (some m1) w).2.2).2.1.Status.Errors
        = some [m1, m2]) ∧
    (∀ (s : WeblogicServer) (p : WeblogicServerPhase) (m : GoError) (v : World σ),
      lastEntry s.Status.Errors = some m →
        (setWeblogicServerState rest s p (some m) v).2.1.Status.Errors = s.Status.Errors) := by
  have h1 : (setWeblogicServerState rest server p1 (some m1) w).2.1.Status.Errors
      = some [m1] := by
    rw [setWeblogicServerState_errors]
    have hn := lastEntry_none_of_len _ hempty
    cases hx : server.Status.Errors with
    | none => simp [hx, lastEntry, goAppend]
    | some l =>
      cases l with
      | nil => simp [lastEntry, goAppend]
      | cons a t => simp [hx, goLen] at hempty
  refine ⟨?_, ?_, ?_⟩
  · rw [setWeblogicServerState_errors, h1]
    simp [lastEntry]
  · intro hne
    rw [setWeblogicServerState_errors, h1]
    simp [lastEntry, hne, goAppend]
  · intro s p m v hm
    rw [setWeblogicServerState_errors]
    simp [hm]

/-- The deduplication at `web1`, whose log is nil: "boom" twice, and "boom" then "bang". -/
theorem setWeblogicServerState_dedup_witness :
    goLen web1.Status.Errors = 0 ∧
    (setWeblogicServerState acceptingRESTClient
        (setWeblogicServerState acceptingRESTClient web1 WeblogicServerFailed
          (some "boom") emptyWorld).2.1 WeblogicServerFailed (some "boom")
        (setWeblogicServerState acceptingRESTClient web1 WeblogicServerFailed
          (some "boom") emptyWorld).2.2).2.1.Status.Errors
      = some ["boom"] ∧
    (setWeblogicServerState acceptingRESTClient
        (setWeblogicServerState acceptingRESTClient web1 WeblogicServerFailed
          (some "boom") emptyWorld).2.1 WeblogicServerFailed (some "bang")
        (setWeblogicServerState acceptingRESTClient web1 WeblogicServerFailed
          (some "boom") emptyWorld).2.2).2.1.Status.Errors
      = some ["boom", "bang"] :=
  ⟨rfl,
    (setWeblogicServerState_dedup acceptingRESTClient web1 WeblogicServerFailed
      WeblogicServerFailed "boom" "bang" emptyWorld rfl).1,
    (setWeblogicServerState_dedup acceptingRESTClient web1 WeblogicServerFailed
      WeblogicServerFailed "boom" "bang" emptyWorld rfl).2.1 (by decide)⟩

/-- C10. After `setWeblogicServerState` the error log is defined (not nil), starts with
the whole previous log (a nil log read as empty) in its order, and has at most one entry
more. -/
theorem setWeblogicServerState_log_grows (rest : RESTClient σ) (server : WeblogicServer)
    (phase : WeblogicServerPhase) (err : Option GoError) (w : World σ) :
    ∃ log tail,
      (setWeblogicServerState rest server phase err w).2.1.Status.Errors = some log ∧
      log = server.Status.Errors.getD [] ++ tail ∧
      tail.length ≤ 1 := by
  rw [setWeblogicServerState_errors]
  cases hx : server.Status.Errors with
  | none =>
    cases err with
    | none => exact ⟨[], [], by simp [goLen]⟩
    | some msg => exact ⟨[msg], [msg], by simp [lastEntry, goAppend]⟩
  | some l =>
    cases err with
    | none =>
      by_cases hl : l.length = 0
      · have : l = [] := List.length_eq_zero.mp hl
        exact ⟨[], [], by simp [goLen, this]⟩
      · exact ⟨l, [], by simp [goLen, hl]⟩
    | some msg =>
      by_cases hm : lastEntry (some l) = some msg
      · exact ⟨l, [], by simp [hm]⟩
      · exact ⟨l ++ [msg], [msg], by simp [hm, goAppend]⟩

/-- C2, as the claim states it, fails: the stateful set of `web1` right after its
creation desires one replica and reports none ready, so the ready count is below the
desired count, yet `updateServerWithStatefulSet` leaves the server in phase Running, not
Pending; it compares the ready count with the count of created replicas in the status,
which is zero as well. -/
theorem updateServerWithStatefulSet_desired_counterexample :
    web1.Spec.Replicas = 1 ∧
    (∃ R, freshSet.Spec.Replicas = some R ∧ freshSet.Status.ReadyReplicas < R) ∧
    (updateServerWithStatefulSet acceptingRESTClient web1 freshSet emptyWorld).2.1.Status.Phase
      = WeblogicServerRunning ∧
    (updateServerWithStatefulSet acceptingRESTClient web1 freshSet emptyWorld).2.1.Status.Phase
      ≠ WeblogicServerPending :=
  ⟨rfl, ⟨1, rfl, by decide⟩, by decide, by decide⟩

/-- C2, amended. With the replica count of the stateful set's status (`Status.Replicas`)
in the place of the desired count: `updateServerWithStatefulSet` leaves the server with
phase Pending when the ready-replica count is below that count and with phase Running
when the two are equal, the case of both being zero included; the desired count of the
stateful set's spec is not read, the outcome being the same for every spec. -/
theorem updateServerWithStatefulSet_phase (rest : RESTClient σ) (server : WeblogicServer)
    (statefulSet : StatefulSet) (w : World σ) :
    (statefulSet.Status.ReadyReplicas < statefulSet.Status.Replicas →
      (updateServerWithStatefulSet rest server statefulSet w).2.1.Status.Phase =
        WeblogicServerPending) ∧
    (statefulSet.Status.ReadyReplicas = statefulSet.Status.Replicas →
      (updateServerWithStatefulSet rest server statefulSet w).2.1.Status.Phase =
        WeblogicServerRunning) ∧
    (statefulSet.Status.ReadyReplicas = 0 ∧ statefulSet.Status.Replicas = 0 →
      (updateServerWithStatefulSet rest server statefulSet w).2.1.Status.Phase =
        WeblogicServerRunning) ∧
    (∀ spec : StatefulSetSpec,
      updateServerWithStatefulSet rest server { statefulSet with Spec := spec } w =
        updateServerWithStatefulSet rest server statefulSet w) := by
  have hrun : statefulSet.Status.ReadyReplicas = statefulSet.Status.Replicas →
      (updateServerWithStatefulSet rest server statefulSet w).2.1.Status.Phase =
        WeblogicServerRunning := by
    intro h
    unfold updateServerWithStatefulSet
    simp [h, setWeblogicServerState_phase]
  refine ⟨?_, hrun, ?_, ?_⟩
  · intro h
    unfold updateServerWithStatefulSet
    simp [h, setWeblogicServerState_phase]
  · intro h
    exact hrun (h.1.trans h.2.symm)
  · intro spec
    rfl

/-- The phase rule at `web1` with zero ready replicas of one created, and with zero of
zero. -/
theorem updateServerWithStatefulSet_phase_witness :
    (startingSet.Status.ReadyReplicas < startingSet.Status.Replicas ∧
      (updateServerWithStatefulSet acceptingRESTClient web1 startingSet emptyWorld).2.1.Status.Phase
        = WeblogicServerPending) ∧
    ((idleSet.Status.ReadyReplicas = 0 ∧ idleSet.Status.Replicas = 0) ∧
      (updateServerWithStatefulSet acceptingRESTClient web1 idleSet emptyWorld).2.1.Status.Phase
        = WeblogicServerRunning) :=
  ⟨⟨by decide,
      (updateServerWithStatefulSet_phase acceptingRESTClient web1 startingSet emptyWorld).1
        (by decide)⟩,
    ⟨⟨rfl, rfl⟩,
      (updateServerWithStatefulSet_phase acceptingRESTClient web1 idleSet emptyWorld).2.2.1
        ⟨rfl, rfl⟩⟩⟩

/-- C7. Evaluation at a server in phase Unknown, a stateful set with no ready replica of
one, and a REST client that rejects the PUT with a conflict: `setWeblogicServerState`
returns the conflict, while `updateServerWithStatefulSet`, having issued that PUT,
returns nil. -/
theorem updateServerWithStatefulSet_drops_conflict :
    (setWeblogicServerState (rejectingRESTClient "conflict") web1 WeblogicServerPending none
        emptyWorld).1 = some "conflict" ∧
    (updateServerWithStatefulSet (rejectingRESTClient "conflict") web1 startingSet
        emptyWorld).1 = none ∧
    (updateServerWithStatefulSet (rejectingRESTClient "conflict") web1 startingSet
        emptyWorld).2.2.calls =
      [Call.putServer "default" "web1"
        { web1 with Status := { Phase := WeblogicServerPending, Errors := some [] } }] := by
  refine ⟨?_, ?_, ?_⟩ <;> decide

/-- C8. When the reconciliation run by a server handler returns an error, the handler
ends with `setWeblogicServerState` for phase Failed and that error, and leaves the server
in phase Failed with the message of the error as the last entry of its log: for `onAdd`
and for `onUpdate` with changed resource version after `createWeblogicServer`, for
`onDelete` after `deleteWeblogicServer`. -/
theorem handlers_mark_failed (x : Externals) (kube : Clientset σ) (rest : RESTClient σ) :
    (∀ (obj : WeblogicServer) (w : World σ) (e : GoError),
      (createWeblogicServer x kube rest obj w).1 = some e →
        onAdd x kube rest obj w =
          (setWeblogicServerState rest (createWeblogicServer x kube rest obj w).2.1
            WeblogicServerFailed (some e) (createWeblogicServer x kube rest obj w).2.2).2 ∧
        (onAdd x kube rest obj w).1.Status.Phase = WeblogicServerFailed ∧
        lastEntry (onAdd x kube rest obj w).1.Status.Errors = some e) ∧
    (∀ (old cur : WeblogicServer) (w : World σ) (e : GoError),
      cur.ResourceVersion ≠ old.ResourceVersion →
      (createWeblogicServer x kube rest cur w).1 = some e →
        onUpdate x kube rest old cur w =
          (setWeblogicServerState rest (createWeblogicServer x kube rest cur w).2.1
            WeblogicServerFailed (some e) (createWeblogicServer x kube rest cur w).2.2).2 ∧
        (onUpdate x kube rest old cur w).1.Status.Phase = WeblogicServerFailed ∧
        lastEntry (onUpdate x kube rest old cur w).1.Status.Errors = some e) ∧
    (∀ (obj : WeblogicServer) (w : World σ) (e : GoError),
      (deleteWeblogicServer x kube obj w).1 = some e →
        onDelete x kube rest obj w =
          (setWeblogicServerState rest obj WeblogicServerFailed (some e)
            (deleteWeblogicServer x kube obj w).2).2 ∧
        (onDelete x kube rest obj w).1.Status.Phase = WeblogicServerFailed ∧
        lastEntry (onDelete x kube rest obj w).1.Status.Errors = some e) := by
  refine ⟨?_, ?_, ?_⟩
  · intro obj w e h
    have hh : onAdd x kube rest obj w =
        (setWeblogicServerState rest (createWeblogicServer x kube rest obj w).2.1
          WeblogicServerFailed (some e) (createWeblogicServer x kube rest obj w).2.2).2 := by
      simp only [onAdd, h]
    rw [hh]
    exact ⟨rfl, setWeblogicServerState_phase _ _ _ _ _, setWeblogicServerState_last _ _ _ _ _⟩
  · intro old cur w e hrv h
    have hh : onUpdate x kube rest old cur w =
        (setWeblogicServerState rest (createWeblogicServer x kube rest cur w).2.1
          WeblogicServerFailed (some e) (createWeblogicServer x kube rest cur w).2.2).2 := by
      simp only [onUpdate, h]
      simp [hrv]
    rw [hh]
    exact ⟨rfl, setWeblogicServerState_phase _ _ _ _ _, setWeblogicServerState_last _ _ _ _ _⟩
  · intro obj w e h
    have hh : onDelete x kube rest obj w =
        (setWeblogicServerState rest obj WeblogicServerFailed (some e)
          (deleteWeblogicServer x kube obj w).2).2 := by
      simp only [onDelete, h]
    rw [hh]
    exact ⟨rfl, setWeblogicServerState_phase _ _ _ _ _, setWeblogicServerState_last _ _ _ _ _⟩

/-- The failure path of `onAdd` at `web1` under a validation that rejects it. -/
theorem handlers_mark_failed_witness :
    (createWeblogicServer strictExternals memoryClientset acceptingRESTClient web1
        emptyWorld).1 = some "spec.version: Invalid value" ∧
    (onAdd strictExternals memoryClientset acceptingRESTClient web1
        emptyWorld).1.Status.Phase = WeblogicServerFailed ∧
    lastEntry (onAdd strictExternals memoryClientset acceptingRESTClient web1
        emptyWorld).1.Status.Errors = some "spec.version: Invalid value" :=
  ⟨rfl,
    ((handlers_mark_failed strictExternals memoryClientset acceptingRESTClient).1 web1
      emptyWorld "spec.version: Invalid value" rfl).2⟩

/-! ## The server handlers -/

/-- C9. With equal resource versions `onUpdate` issues no request and leaves the current
snapshot and the world as they were. With different resource versions it runs
`createWeblogicServer` on the current snapshot: its requests start with those of that
run, and it ends as that run does when the run returns nil, and with the status write
for Failed when the run returns an error. -/
theorem onUpdate_resync (x : Externals) (kube : Clientset σ) (rest : RESTClient σ)
    (old cur : WeblogicServer) (w : World σ) :
    (cur.ResourceVersion = old.ResourceVersion →
      onUpdate x kube rest old cur w = (cur, w)) ∧
    (cur.ResourceVersion ≠ old.ResourceVersion →
      (∃ tail, (onUpdate x kube rest old cur w).2.calls =
        (createWeblogicServer x kube rest cur w).2.2.calls ++ tail) ∧
      ((createWeblogicServer x kube rest cur w).1 = none →
        onUpdate x kube rest old cur w = (createWeblogicServer x kube rest cur w).2) ∧
      (∀ e, (createWeblogicServer x kube rest cur w).1 = some e →
        onUpdate x kube rest old cur w =
          (setWeblogicServerState rest (createWeblogicServer x kube rest cur w).2.1
            WeblogicServerFailed (some e) (createWeblogicServer x kube rest cur w).2.2).2)) := by
  constructor
  · intro h
    simp [onUpdate, h]
  · intro h
    have hnone : (createWeblogicServer x kube rest cur w).1 = none →
        onUpdate x kube rest old cur w = (createWeblogicServer x kube rest cur w).2 := by
      intro hc
      simp only [onUpdate, hc]
      simp [h]
    have hsome : ∀ e, (createWeblogicServer x kube rest cur w).1 = some e →
        onUpdate x kube rest old cur w =
          (setWeblogicServerState rest (createWeblogicServer x kube rest cur w).2.1
            WeblogicServerFailed (some e) (createWeblogicServer x kube rest cur w).2.2).2 := by
      intro e hc
      simp only [onUpdate, hc]
      simp [h]
    refine ⟨?_, hnone, hsome⟩
    cases hc : (createWeblogicServer x kube rest cur w).1 with
    | none => exact ⟨[], by rw [hnone hc]; simp⟩
    | some e =>
      rw [hsome e hc]
      exact setWeblogicServerState_calls _ _ _ _ _

/-- The resync rule at `web1` against itself, and against its later snapshot. -/
theorem onUpdate_resync_witness :
    (web1.ResourceVersion = web1.ResourceVersion ∧
      onUpdate sampleExternals memoryClientset acceptingRESTClient web1 web1 emptyWorld =
        (web1, emptyWorld)) ∧
    (web1Changed.ResourceVersion ≠ web1.ResourceVersion ∧
      (createWeblogicServer sampleExternals memoryClientset acceptingRESTClient web1Changed
        emptyWorld).1 = none ∧
      onUpdate sampleExternals memoryClientset acceptingRESTClient web1 web1Changed emptyWorld =
        (createWeblogicServer sampleExternals memoryClientset acceptingRESTClient web1Changed
          emptyWorld).2) :=
  ⟨⟨rfl, (onUpdate_resync sampleExternals memoryClientset acceptingRESTClient web1 web1
      emptyWorld).1 rfl⟩,
    ⟨by decide, rfl,
      ((onUpdate_resync sampleExternals memoryClientset acceptingRESTClient web1 web1Changed
        emptyWorld).2 (by decide)).2.1 rfl⟩⟩

/-! ## Lookups -/

/-- The stateful-set lookup issues the list request and nothing else. -/
theorem GetStatefulSetForWeblogicServer_world (x : Externals) (kube : Clientset σ)
    (server : WeblogicServer) (w : World σ) :
    (GetStatefulSetForWeblogicServer x kube server w).2 =
      (doListStatefulSets kube server.Namespace (getLabelSelectorForServer x server) w).2 := by
  dsimp only [GetStatefulSetForWeblogicServer]
  split <;> rfl

/-- The service lookup issues the list request and nothing else. -/
theorem GetServiceForWeblogicServer_world (x : Externals) (kube : Clientset σ)
    (server : WeblogicServer) (w : World σ) :
    (GetServiceForWeblogicServer x kube server w).2 =
      (doListServices kube server.Namespace (getLabelSelectorForServer x server) w).2 := by
  dsimp only [GetServiceForWeblogicServer]
  split <;> rfl

/-- The requests of `DeleteServiceForWeblogicServer` start with the service lookup. -/
theorem DeleteServiceForWeblogicServer_calls (x : Externals) (kube : Clientset σ)
    (server : WeblogicServer) (w : World σ) :
    ∃ tail, (DeleteServiceForWeblogicServer x kube server w).2.calls =
      w.calls ++ [Call.listServices server.Namespace (getLabelSelectorForServer x server)]
        ++ tail := by
  have hw := GetServiceForWeblogicServer_world x kube server w
  dsimp only [DeleteServiceForWeblogicServer]
  split
  · exact ⟨[], by simp [hw, doListServices]⟩
  · exact ⟨[], by simp [hw, doListServices]⟩
  · rename_i service _
    exact ⟨[Call.deleteService server.Namespace service.Name],
      by simp [hw, doListServices, doDeleteService]⟩

/-! ## Deletion -/

/-- C4, as the claim states it, fails: `web1` passes validation and the lookup in the
empty cluster succeeds and finds no stateful set, yet `DeleteStatefulSetForWeblogicServer`
returns nil, and `deleteWeblogicServer` goes on to the lookup of the service and returns
nil as well. -/
theorem deleteWeblogicServer_absent_counterexample :
    sampleExternals.Validate web1 = none ∧
    (GetStatefulSetForWeblogicServer sampleExternals memoryClientset web1 emptyWorld).1 =
      .ok none ∧
    ¬ (∃ e, (DeleteStatefulSetForWeblogicServer sampleExternals memoryClientset web1
      emptyWorld).1 = some e) ∧
    (deleteWeblogicServer sampleExternals memoryClientset web1 emptyWorld).1 = none ∧
    (deleteWeblogicServer sampleExternals memoryClientset web1 emptyWorld).2.calls =
      [Call.listStatefulSets "default" "server-label=web1",
        Call.listServices "default" "server-label=web1"] := by
  refine ⟨rfl, rfl, ?_, rfl, ?_⟩
  · rintro ⟨e, he⟩
    have h0 : (DeleteStatefulSetForWeblogicServer sampleExternals memoryClientset web1
        emptyWorld).1 = none := rfl
    rw [h0] at he
    cases he
  · decide

/-- C4, amended. For a server that passes validation and whose stateful-set lookup
succeeds and finds nothing, `DeleteStatefulSetForWeblogicServer` issues the list request
only and returns nil, and `deleteWeblogicServer` goes on to
`DeleteServiceForWeblogicServer`, whose result it returns; the service lookup is
issued. -/
theorem deleteWeblogicServer_absent (x : Externals) (kube : Clientset σ)
    (server : WeblogicServer) (w : World σ)
    (hvalid : x.Validate server = none)
    (habsent : (GetStatefulSetForWeblogicServer x kube server w).1 = .ok none) :
    (DeleteStatefulSetForWeblogicServer x kube server w).1 = none ∧
    (DeleteStatefulSetForWeblogicServer x kube server w).2.calls =
      w.calls ++ [Call.listStatefulSets server.Namespace (getLabelSelectorForServer x server)] ∧
    deleteWeblogicServer x kube server w =
      DeleteServiceForWeblogicServer x kube server
        (DeleteStatefulSetForWeblogicServer x kube server w).2 ∧
    (∃ tail, (deleteWeblogicServer x kube server w).2.calls =
      w.calls ++ [Call.listStatefulSets server.Namespace (getLabelSelectorForServer x server),
        Call.listServices server.Namespace (getLabelSelectorForServer x server)] ++ tail) := by
  have hw := GetStatefulSetForWeblogicServer_world x kube server w
  have hd : DeleteStatefulSetForWeblogicServer x kube server w =
      (none, (GetStatefulSetForWeblogicServer x kube server w).2) := by
    simp only [DeleteStatefulSetForWeblogicServer, habsent]
  have hdel : deleteWeblogicServer x kube server w =
      DeleteServiceForWeblogicServer x kube server
        (DeleteStatefulSetForWeblogicServer x kube server w).2 := by
    simp only [deleteWeblogicServer, hvalid, hd]
    cases hr : (DeleteServiceForWeblogicServer x kube server
      (GetStatefulSetForWeblogicServer x kube server w).2).1 with
    | none => exact Prod.ext hr.symm rfl
    | some e => exact Prod.ext hr.symm rfl
  refine ⟨by rw [hd], ?_, hdel, ?_⟩
  · rw [hd, hw]
    simp [doListStatefulSets]
  · obtain ⟨tail, ht⟩ := DeleteServiceForWeblogicServer_calls x kube server
      (DeleteStatefulSetForWeblogicServer x kube server w).2
    refine ⟨tail, ?_⟩
    rw [hdel, ht, hd, hw]
    simp [doListStatefulSets]

/-- Deletion of `web1` over the empty cluster. -/
theorem deleteWeblogicServer_absent_witness :
    sampleExternals.Validate web1 = none ∧
    (GetStatefulSetForWeblogicServer sampleExternals memoryClientset web1 emptyWorld).1 =
      .ok none ∧
    (DeleteStatefulSetForWeblogicServer sampleExternals memoryClientset web1 emptyWorld).1 =
      none ∧
    deleteWeblogicServer sampleExternals memoryClientset web1 emptyWorld =
      DeleteServiceForWeblogicServer sampleExternals memoryClientset web1
        (DeleteStatefulSetForWeblogicServer sampleExternals memoryClientset web1
          emptyWorld).2 :=
  ⟨rfl, rfl,
    (deleteWeblogicServer_absent sampleExternals memoryClientset web1 emptyWorld rfl rfl).1,
    (deleteWeblogicServer_absent sampleExternals memoryClientset web1 emptyWorld rfl rfl).2.2.1⟩

/-! ## Creation -/

/-- After `m[k] = v` with the server label as key, the map carries the label. -/
theorem HasServerNameLabel_mapSet (x : Externals) (m : List (String × String))
    (name : String) :
    HasServerNameLabel x (some (mapSet m x.WeblogicServerLabel name)) name = true := by
  simp [HasServerNameLabel, mapSet]

/-- The requests of `CreateServiceForWeblogicServer` start with the service lookup. -/
theorem CreateServiceForWeblogicServer_calls (x : Externals) (kube : Clientset σ)
    (server : WeblogicServer) (w : World σ) :
    ∃ tail, (CreateServiceForWeblogicServer x kube server w).2.calls =
      w.calls ++ [Call.listServices server.Namespace (getLabelSelectorForServer x server)]
        ++ tail := by
  have hw := GetServiceForWeblogicServer_world x kube server w
  dsimp only [CreateServiceForWeblogicServer]
  split
  · exact ⟨[], by simp [hw, doListServices]⟩
  · exact ⟨[], by simp [hw, doListServices]⟩
  · exact ⟨[Call.createService server.Namespace (servicesNewForServer x server)],
      by simp [hw, doListServices, doCreateService]⟩

/-- The requests of `createDependents` start with the service lookup. -/
theorem createDependents_calls (x : Externals) (kube : Clientset σ)
    (server : WeblogicServer) (w : World σ) :
    ∃ tail, (createDependents x kube server w).2.2.calls =
      w.calls ++ [Call.listServices server.Namespace (getLabelSelectorForServer x server)]
        ++ tail := by
  obtain ⟨t1, h1⟩ := CreateServiceForWeblogicServer_calls x kube server w
  dsimp only [createDependents]
  split
  · exact ⟨t1, h1⟩
  · rename_i serverService _
    have hss : ∃ t2, (CreateStatefulSetForWeblogicServer x kube server serverService
        (CreateServiceForWeblogicServer x kube server w).2).2.calls =
        (CreateServiceForWeblogicServer x kube server w).2.calls ++ t2 := by
      have hw := GetStatefulSetForWeblogicServer_world x kube server
        (CreateServiceForWeblogicServer x kube server w).2
      dsimp only [CreateStatefulSetForWeblogicServer]
      split
      · exact ⟨[Call.listStatefulSets server.Namespace (getLabelSelectorForServer x server)],
          by simp [hw, doListStatefulSets]⟩
      · exact ⟨[Call.listStatefulSets server.Namespace (getLabelSelectorForServer x server)],
          by simp [hw, doListStatefulSets]⟩
      · exact ⟨[Call.listStatefulSets server.Namespace (getLabelSelectorForServer x server),
            Call.createStatefulSet server.Namespace
              (x.statefulsetsNewForServer server serverService.Name)],
          by simp [hw, doListStatefulSets, doCreateStatefulSet]⟩
    obtain ⟨t2, h2⟩ := hss
    refine ⟨t1 ++ t2, ?_⟩
    split
    · simp [h2, h1]
    · simp [h2, h1]

/-- C5. Let the server pass validation and its labels not map the server label to its
name (`EnsureDefaults`, which is not among the sources, keeping name and labels). Then
`createWeblogicServer` leaves the server with that label set to its name, issues the PUT
of the labelled server and no other request, and `HasServerNameLabel` holds of the
labelled server. The next `createWeblogicServer` on the labelled server, it passing
validation too, gets past both gates: it is `CreateServiceForWeblogicServer` followed on
success by `CreateStatefulSetForWeblogicServer`, and its first request is the service
lookup. -/
theorem createWeblogicServer_label_gate (x : Externals) (kube : Clientset σ)
    (rest : RESTClient σ) (server labelled : WeblogicServer) (w v : World σ)
    (hdefaults : ∀ s, (x.EnsureDefaults s).Name = s.Name ∧ (x.EnsureDefaults s).Labels = s.Labels)
    (hvalid : x.Validate (x.EnsureDefaults server) = none)
    (hlabel : HasServerNameLabel x server.Labels server.Name = false)
    (hlabelled : labelled = (createWeblogicServer x kube rest server w).2.1)
    (hvalid2 : x.Validate (x.EnsureDefaults labelled) = none) :
    labelled =
      { x.EnsureDefaults server with
        Labels := some (mapSet (server.Labels.getD []) x.WeblogicServerLabel server.Name) } ∧
    (createWeblogicServer x kube rest server w).2.2.calls =
      w.calls ++ [Call.putServer labelled.Namespace labelled.Name labelled] ∧
    HasServerNameLabel x labelled.Labels labelled.Name = true ∧
    createWeblogicServer x kube rest labelled v =
      createDependents x kube (x.EnsureDefaults labelled) v ∧
    (∃ tail, (createWeblogicServer x kube rest labelled v).2.2.calls =
      v.calls ++ [Call.listServices (x.EnsureDefaults labelled).Namespace
        (getLabelSelectorForServer x labelled)] ++ tail) := by
  have hgate : HasServerNameLabel x (x.EnsureDefaults server).Labels
      (x.EnsureDefaults server).Name = false := by
    rw [(hdefaults server).1, (hdefaults server).2]
    exact hlabel
  have hfirst : createWeblogicServer x kube rest server w =
      ((doPut rest { x.EnsureDefaults server with
          Labels := some (mapSet (server.Labels.getD []) x.WeblogicServerLabel server.Name) } w).1,
        { x.EnsureDefaults server with
          Labels := some (mapSet (server.Labels.getD []) x.WeblogicServerLabel server.Name) },
        (doPut rest { x.EnsureDefaults server with
          Labels := some (mapSet (server.Labels.getD []) x.WeblogicServerLabel server.Name) } w).2) := by
    simp only [createWeblogicServer, hvalid, hgate, updateWeblogicServer]
    rw [(hdefaults server).1, (hdefaults server).2]
    cases server.Labels <;> simp
  have hl : labelled =
      { x.EnsureDefaults server with
        Labels := some (mapSet (server.Labels.getD []) x.WeblogicServerLabel server.Name) } := by
    rw [hlabelled, hfirst]
  have hhas : HasServerNameLabel x labelled.Labels labelled.Name = true := by
    rw [hl]
    simp only [(hdefaults server).1]
    exact HasServerNameLabel_mapSet x _ _
  have hgate2 : HasServerNameLabel x (x.EnsureDefaults labelled).Labels
      (x.EnsureDefaults labelled).Name = true := by
    rw [(hdefaults labelled).1, (hdefaults labelled).2]
    exact hhas
  have hnext : createWeblogicServer x kube rest labelled v =
      createDependents x kube (x.EnsureDefaults labelled) v := by
    simp only [createWeblogicServer, createDependents, hvalid2, hgate2]
    simp
  refine ⟨hl, ?_, hhas, hnext, ?_⟩
  · rw [hfirst, ← hl]
    simp [doPut]
  · obtain ⟨tail, ht⟩ := createDependents_calls x kube (x.EnsureDefaults labelled) v
    refine ⟨tail, ?_⟩
    rw [hnext, ht]
    simp [getLabelSelectorForServer, (hdefaults labelled).1]

/-- The sample defaulting keeps name and labels. -/
theorem sampleEnsureDefaults_keeps (s : WeblogicServer) :
    (sampleEnsureDefaults s).Name = s.Name ∧ (sampleEnsureDefaults s).Labels = s.Labels := by
  simp only [sampleEnsureDefaults]
  constructor <;> split_ifs <;> rfl

/-- The label gate at `web1` over the empty cluster: one PUT in the first cycle, the two
lookups and the two creations in the next. -/
theorem createWeblogicServer_label_gate_witness :
    HasServerNameLabel sampleExternals web1.Labels web1.Name = false ∧
    (createWeblogicServer sampleExternals memoryClientset acceptingRESTClient web1
        emptyWorld).2.2.calls =
      [Call.putServer "default" "web1"
        { web1 with
          Labels := some [("server-label", "web1")]
          Spec := { Version := "12.2.1.2", Replicas := 1 } }] ∧
    (createWeblogicServer sampleExternals memoryClientset acceptingRESTClient
        (createWeblogicServer sampleExternals memoryClientset acceptingRESTClient web1
          emptyWorld).2.1 emptyWorld).2.2.calls =
      [Call.listServices "default" "server-label=web1",
        Call.createService "default" (servicesNewForServer sampleExternals web1),
        Call.listStatefulSets "default" "server-label=web1",
        Call.createStatefulSet "default"
          (sampleExternals.statefulsetsNewForServer web1 "web1")] :=
  ⟨rfl,
    ((createWeblogicServer_label_gate sampleExternals memoryClientset acceptingRESTClient web1
      _ emptyWorld emptyWorld sampleEnsureDefaults_keeps rfl rfl rfl rfl).2.1).trans
        (by decide),
    by decide⟩

/-! ## Find-or-create over the in-memory cluster -/

/-- A label map that carries the server's label satisfies the server's selector. -/
theorem selectorMatches_of_label (x : Externals) (server : WeblogicServer) (labels : LabelMap)
    (h : HasServerNameLabel x labels server.Name = true) :
    selectorMatches (getLabelSelectorForServer x server) labels = true := by
  cases labels with
  | none => simp [HasServerNameLabel] at h
  | some entries =>
    simp only [HasServerNameLabel, List.any_eq_true, Bool.and_eq_true, beq_iff_eq] at h
    obtain ⟨kv, hmem, hk, hv⟩ := h
    simp only [selectorMatches, getLabelSelectorForServer, List.any_eq_true, beq_iff_eq]
    exact ⟨kv, hmem, by rw [hk, hv]⟩

/-- The service lookup over the in-memory cluster finds the first stored service of the
namespace that carries the label. -/
theorem GetServiceForWeblogicServer_memory (x : Externals) (server : WeblogicServer)
    (w : World Cluster) :
    GetServiceForWeblogicServer x memoryClientset server w =
      (.ok (w.cluster.services.find?
          (fun s => s.Namespace == server.Namespace && HasServerNameLabel x s.Labels server.Name)),
        { cluster := w.cluster
          calls := w.calls ++
            [Call.listServices server.Namespace (getLabelSelectorForServer x server)] }) := by
  simp only [GetServiceForWeblogicServer, doListServices, memoryClientset, List.find?_filter]
  congr 2
  apply congrArg (fun p => List.find? p w.cluster.services)
  funext s
  by_cases hn : s.Namespace = server.Namespace <;>
    by_cases hq : HasServerNameLabel x s.Labels server.Name = true
  · simp [hn, hq, selectorMatches_of_label x server s.Labels hq]
  · simp [hn, hq]
  · simp [hn, hq]
  · simp [hn, hq]

/-- The stateful-set lookup over the in-memory cluster finds the first stored stateful
set of the namespace that carries the label. -/
theorem GetStatefulSetForWeblogicServer_memory (x : Externals) (server : WeblogicServer)
    (w : World Cluster) :
    GetStatefulSetForWeblogicServer x memoryClientset server w =
      (.ok (w.cluster.statefulSets.find?
          (fun s => s.Namespace == server.Namespace && HasServerNameLabel x s.Labels server.Name)),
        { cluster := w.cluster
          calls := w.calls ++
            [Call.listStatefulSets server.Namespace (getLabelSelectorForServer x server)] }) := by
  simp only [GetStatefulSetForWeblogicServer, doListStatefulSets, memoryClientset,
    List.find?_filter]
  congr 2
  apply congrArg (fun p => List.find? p w.cluster.statefulSets)
  funext s
  by_cases hn : s.Namespace = server.Namespace <;>
    by_cases hq : HasServerNameLabel x s.Labels server.Name = true
  · simp [hn, hq, selectorMatches_of_label x server s.Labels hq]
  · simp [hn, hq]
  · simp [hn, hq]
  · simp [hn, hq]

/-- What `CreateServiceForWeblogicServer` does over the in-memory cluster. -/
theorem CreateServiceForWeblogicServer_memory (x : Externals) (server : WeblogicServer)
    (w : World Cluster) :
    CreateServiceForWeblogicServer x memoryClientset server w =
      match w.cluster.services.find?
          (fun s => s.Namespace == server.Namespace && HasServerNameLabel x s.Labels server.Name) with
      | some existingService =>
        (.ok existingService,
          { cluster := w.cluster
            calls := w.calls ++
              [Call.listServices server.Namespace (getLabelSelectorForServer x server)] })
      | none =>
        (.ok (servicesNewForServer x server),
          { cluster := { w.cluster with
              services := w.cluster.services ++ [servicesNewForServer x server] }
            calls := w.calls ++
              [Call.listServices server.Namespace (getLabelSelectorForServer x server),
                Call.createService server.Namespace (servicesNewForServer x server)] }) := by
  simp only [CreateServiceForWeblogicServer, GetServiceForWeblogicServer_memory]
  cases hf : w.cluster.services.find?
      (fun s => s.Namespace == server.Namespace && HasServerNameLabel x s.Labels server.Name) with
  | some e => rfl
  | none => simp [doCreateService, memoryClientset, servicesNewForServer]

/-- What `CreateStatefulSetForWeblogicServer` does over the in-memory cluster. -/
theorem CreateStatefulSetForWeblogicServer_memory (x : Externals) (server : WeblogicServer)
    (service : Service) (w : World Cluster) :
    CreateStatefulSetForWeblogicServer x memoryClientset server service w =
      match w.cluster.statefulSets.find?
          (fun s => s.Namespace == server.Namespace && HasServerNameLabel x s.Labels server.Name) with
      | some existingStatefulSet =>
        (.ok existingStatefulSet,
          { cluster := w.cluster
            calls := w.calls ++
              [Call.listStatefulSets server.Namespace (getLabelSelectorForServer x server)] })
      | none =>
        (.ok { x.statefulsetsNewForServer server service.Name with Namespace := server.Namespace },
          { cluster := { w.cluster with
              statefulSets := w.cluster.statefulSets ++
                [{ x.statefulsetsNewForServer server service.Name with
                    Namespace := server.Namespace }] }
            calls := w.calls ++
              [Call.listStatefulSets server.Namespace (getLabelSelectorForServer x server),
                Call.createStatefulSet server.Namespace
                  (x.statefulsetsNewForServer server service.Name)] }) := by
  simp only [CreateStatefulSetForWeblogicServer, GetStatefulSetForWeblogicServer_memory]
  cases hf : w.cluster.statefulSets.find?
      (fun s => s.Namespace == server.Namespace && HasServerNameLabel x s.Labels server.Name) with
  | some e => rfl
  | none => simp [doCreateStatefulSet, memoryClientset]

/-- Find-or-create on a list: when the first match is looked up again after the lookup
has appended a matching element on a miss, the same element is found, and a list with at
most one match ends with exactly one. -/
theorem find_or_append {α : Type} (c : α → Bool) (l : List α) (fresh : α)
    (hfresh : c fresh = true) :
    (match l.find? c with
      | some a => l.find? c = some a
      | none => (l ++ [fresh]).find? c = some fresh) ∧
    ((l.filter c).length ≤ 1 →
      (match l.find? c with
        | some _ => (l.filter c).length = 1
        | none => ((l ++ [fresh]).filter c).length = 1)) := by
  cases hf : l.find? c with
  | some a =>
    refine ⟨rfl, fun hle => ?_⟩
    have hmem : a ∈ l.filter c :=
      List.mem_filter.mpr ⟨List.mem_of_find?_eq_some hf, List.find?_some hf⟩
    have hpos : 0 < (l.filter c).length := List.length_pos_of_mem hmem
    show (l.filter c).length = 1
    omega
  | none =>
    have hnil : l.filter c = [] := by
      rw [List.filter_eq_nil_iff]
      intro a ha
      exact (List.find?_eq_none.mp hf) a ha
    refine ⟨?_, fun _ => ?_⟩
    · show (l ++ [fresh]).find? c = some fresh
      simp [List.find?_append, hf, hfresh]
    · show ((l ++ [fresh]).filter c).length = 1
      simp [List.filter_append, hnil, hfresh]

/-- Two `CreateServiceForWeblogicServer` calls in succession over the in-memory cluster. -/
theorem CreateServiceForWeblogicServer_twice (x : Externals) (server : WeblogicServer)
    (w : World Cluster) :
    (∃ svc, (CreateServiceForWeblogicServer x memoryClientset server w).1 = .ok svc ∧
      (CreateServiceForWeblogicServer x memoryClientset server
        (CreateServiceForWeblogicServer x memoryClientset server w).2).1 = .ok svc) ∧
    (CreateServiceForWeblogicServer x memoryClientset server
        (CreateServiceForWeblogicServer x memoryClientset server w).2).2.calls =
      (CreateServiceForWeblogicServer x memoryClientset server w).2.calls ++
        [Call.listServices server.Namespace (getLabelSelectorForServer x server)] ∧
    (CreateServiceForWeblogicServer x memoryClientset server
        (CreateServiceForWeblogicServer x memoryClientset server w).2).2.cluster =
      (CreateServiceForWeblogicServer x memoryClientset server w).2.cluster ∧
    (countServices x server w.cluster ≤ 1 →
      countServices x server
        (CreateServiceForWeblogicServer x memoryClientset server
          (CreateServiceForWeblogicServer x memoryClientset server w).2).2.cluster = 1) := by
  have hfresh : (fun s : Service => s.Namespace == server.Namespace &&
      HasServerNameLabel x s.Labels server.Name) (servicesNewForServer x server) = true := by
    simp [servicesNewForServer, HasServerNameLabel]
  have key := find_or_append
    (fun s : Service => s.Namespace == server.Namespace &&
      HasServerNameLabel x s.Labels server.Name)
    w.cluster.services (servicesNewForServer x server) hfresh
  cases hf : w.cluster.services.find?
      (fun s => s.Namespace == server.Namespace && HasServerNameLabel x s.Labels server.Name) with
  | some e =>
    rw [hf] at key
    have h1 : CreateServiceForWeblogicServer x memoryClientset server w =
        (.ok e, { cluster := w.cluster, calls := w.calls ++
          [Call.listServices server.Namespace (getLabelSelectorForServer x server)] }) := by
      rw [CreateServiceForWeblogicServer_memory, hf]
    have h2 : CreateServiceForWeblogicServer x memoryClientset server
        (CreateServiceForWeblogicServer x memoryClientset server w).2 =
        (.ok e, { cluster := w.cluster, calls := w.calls ++
          [Call.listServices server.Namespace (getLabelSelectorForServer x server)] ++
          [Call.listServices server.Namespace (getLabelSelectorForServer x server)] }) := by
      rw [h1, CreateServiceForWeblogicServer_memory]
      simp only [hf]
    rw [h2, h1]
    exact ⟨⟨e, rfl, rfl⟩, rfl, rfl, key.2⟩
  | none =>
    rw [hf] at key
    have h1 : CreateServiceForWeblogicServer x memoryClientset server w =
        (.ok (servicesNewForServer x server),
          { cluster := { w.cluster with
              services := w.cluster.services ++ [servicesNewForServer x server] }
            calls := w.calls ++
              [Call.listServices server.Namespace (getLabelSelectorForServer x server),
                Call.createService server.Namespace (servicesNewForServer x server)] }) := by
      rw [CreateServiceForWeblogicServer_memory, hf]
    have h2 : CreateServiceForWeblogicServer x memoryClientset server
        (CreateServiceForWeblogicServer x memoryClientset server w).2 =
        (.ok (servicesNewForServer x server),
          { cluster := { w.cluster with
              services := w.cluster.services ++ [servicesNewForServer x server] }
            calls := w.calls ++
              [Call.listServices server.Namespace (getLabelSelectorForServer x server),
                Call.createService server.Namespace (servicesNewForServer x server)] ++
              [Call.listServices server.Namespace (getLabelSelectorForServer x server)] }) := by
      rw [h1, CreateServiceForWeblogicServer_memory]
      simp only [key.1]
    rw [h2, h1]
    exact ⟨⟨_, rfl, rfl⟩, rfl, rfl, key.2⟩

/-- Two `CreateStatefulSetForWeblogicServer` calls in succession over the in-memory
cluster, the template carrying the server's label. -/
theorem CreateStatefulSetForWeblogicServer_twice (x : Externals) (server : WeblogicServer)
    (service : Service) (w : World Cluster)
    (htemplate : HasServerNameLabel x
      (x.statefulsetsNewForServer server service.Name).Labels server.Name = true) :
    (∃ ss, (CreateStatefulSetForWeblogicServer x memoryClientset server service w).1 = .ok ss ∧
      (CreateStatefulSetForWeblogicServer x memoryClientset server service
        (CreateStatefulSetForWeblogicServer x memoryClientset server service w).2).1 = .ok ss) ∧
    (CreateStatefulSetForWeblogicServer x memoryClientset server service
        (CreateStatefulSetForWeblogicServer x memoryClientset server service w).2).2.calls =
      (CreateStatefulSetForWeblogicServer x memoryClientset server service w).2.calls ++
        [Call.listStatefulSets server.Namespace (getLabelSelectorForServer x server)] ∧
    (CreateStatefulSetForWeblogicServer x memoryClientset server service
        (CreateStatefulSetForWeblogicServer x memoryClientset server service w).2).2.cluster =
      (CreateStatefulSetForWeblogicServer x memoryClientset server service w).2.cluster ∧
    (countStatefulSets x server w.cluster ≤ 1 →
      countStatefulSets x server
        (CreateStatefulSetForWeblogicServer x memoryClientset server service
          (CreateStatefulSetForWeblogicServer x memoryClientset server service w).2).2.cluster
        = 1) := by
  have hfresh : (fun s : StatefulSet => s.Namespace == server.Namespace &&
      HasServerNameLabel x s.Labels server.Name)
      { x.statefulsetsNewForServer server service.Name with Namespace := server.Namespace }
        = true := by
    simp [htemplate]
  have key := find_or_append
    (fun s : StatefulSet => s.Namespace == server.Namespace &&
      HasServerNameLabel x s.Labels server.Name)
    w.cluster.statefulSets
    { x.statefulsetsNewForServer server service.Name with Namespace := server.Namespace } hfresh
  cases hf : w.cluster.statefulSets.find?
      (fun s => s.Namespace == server.Namespace && HasServerNameLabel x s.Labels server.Name) with
  | some e =>
    rw [hf] at key
    have h1 : CreateStatefulSetForWeblogicServer x memoryClientset server service w =
        (.ok e, { cluster := w.cluster, calls := w.calls ++
          [Call.listStatefulSets server.Namespace (getLabelSelectorForServer x server)] }) := by
      rw [CreateStatefulSetForWeblogicServer_memory, hf]
    have h2 : CreateStatefulSetForWeblogicServer x memoryClientset server service
        (CreateStatefulSetForWeblogicServer x memoryClientset server service w).2 =
        (.ok e, { cluster := w.cluster, calls := w.calls ++
          [Call.listStatefulSets server.Namespace (getLabelSelectorForServer x server)] ++
          [Call.listStatefulSets server.Namespace (getLabelSelectorForServer x server)] }) := by
      rw [h1, CreateStatefulSetForWeblogicServer_memory]
      simp only [hf]
    rw [h2, h1]
    exact ⟨⟨e, rfl, rfl⟩, rfl, rfl, key.2⟩
  | none =>
    rw [hf] at key
    have h1 : CreateStatefulSetForWeblogicServer x memoryClientset server service w =
        (.ok { x.statefulsetsNewForServer server service.Name with
            Namespace := server.Namespace },
          { cluster := { w.cluster with
              statefulSets := w.cluster.statefulSets ++
                [{ x.statefulsetsNewForServer server service.Name with
                    Namespace := server.Namespace }] }
            calls := w.calls ++
              [Call.listStatefulSets server.Namespace (getLabelSelectorForServer x server),
                Call.createStatefulSet server.Namespace
                  (x.statefulsetsNewForServer server service.Name)] }) := by
      rw [CreateStatefulSetForWeblogicServer_memory, hf]
    have h2 : CreateStatefulSetForWeblogicServer x memoryClientset server service
        (CreateStatefulSetForWeblogicServer x memoryClientset server service w).2 =
        (.ok { x.statefulsetsNewForServer server service.Name with
            Namespace := server.Namespace },
          { cluster := { w.cluster with
              statefulSets := w.cluster.statefulSets ++
                [{ x.statefulsetsNewForServer server service.Name with
                    Namespace := server.Namespace }] }
            calls := w.calls ++
              [Call.listStatefulSets server.Namespace (getLabelSelectorForServer x server),
                Call.createStatefulSet server.Namespace
                  (x.statefulsetsNewForServer server service.Name)] ++
              [Call.listStatefulSets server.Namespace (getLabelSelectorForServer x server)] }) := by
      rw [h1, CreateStatefulSetForWeblogicServer_memory]
      simp only [key.1]
    rw [h2, h1]
    exact ⟨⟨_, rfl, rfl⟩, rfl, rfl, key.2⟩

/-- C6, as the claim states it, fails: in a cluster that already holds two services
carrying the label of `web1` in its namespace, list and create succeeding, two
`CreateServiceForWeblogicServer` calls in succession leave two such services, not one. -/
theorem CreateServiceForWeblogicServer_twice_counterexample :
    countServices sampleExternals web1
        (CreateServiceForWeblogicServer sampleExternals memoryClientset web1
          (CreateServiceForWeblogicServer sampleExternals memoryClientset web1
            crowdedWorld).2).2.cluster = 2 ∧
    ¬ (countServices sampleExternals web1
        (CreateServiceForWeblogicServer sampleExternals memoryClientset web1
          (CreateServiceForWeblogicServer sampleExternals memoryClientset web1
            crowdedWorld).2).2.cluster = 1) := by
  constructor <;> decide

/-- C6, amended. Over the in-memory cluster, whose list and create succeed, the second of
two `CreateServiceForWeblogicServer` calls in succession returns the service the first
returned, issues the list request only, and leaves the cluster as the first left it; and
when the cluster held at most one service carrying the server's label in the server's
namespace before, it holds exactly one after. The same holds of
`CreateStatefulSetForWeblogicServer` when the stateful-set template carries the server's
label. -/
theorem find_or_create_twice (x : Externals) (server : WeblogicServer) (service : Service)
    (w : World Cluster)
    (htemplate : HasServerNameLabel x
      (x.statefulsetsNewForServer server service.Name).Labels server.Name = true) :
    ((∃ svc, (CreateServiceForWeblogicServer x memoryClientset server w).1 = .ok svc ∧
        (CreateServiceForWeblogicServer x memoryClientset server
          (CreateServiceForWeblogicServer x memoryClientset server w).2).1 = .ok svc) ∧
      (CreateServiceForWeblogicServer x memoryClientset server
          (CreateServiceForWeblogicServer x memoryClientset server w).2).2.calls =
        (CreateServiceForWeblogicServer x memoryClientset server w).2.calls ++
          [Call.listServices server.Namespace (getLabelSelectorForServer x server)] ∧
      (CreateServiceForWeblogicServer x memoryClientset server
          (CreateServiceForWeblogicServer x memoryClientset server w).2).2.cluster =
        (CreateServiceForWeblogicServer x memoryClientset server w).2.cluster ∧
      (countServices x server w.cluster ≤ 1 →
        countServices x server
          (CreateServiceForWeblogicServer x memoryClientset server
            (CreateServiceForWeblogicServer x memoryClientset server w).2).2.cluster = 1)) ∧
    ((∃ ss, (CreateStatefulSetForWeblogicServer x memoryClientset server service w).1 = .ok ss ∧
        (CreateStatefulSetForWeblogicServer x memoryClientset server service
          (CreateStatefulSetForWeblogicServer x memoryClientset server service w).2).1 = .ok ss) ∧
      (CreateStatefulSetForWeblogicServer x memoryClientset server service
          (CreateStatefulSetForWeblogicServer x memoryClientset server service w).2).2.calls =
        (CreateStatefulSetForWeblogicServer x memoryClientset server service w).2.calls ++
          [Call.listStatefulSets server.Namespace (getLabelSelectorForServer x server)] ∧
      (CreateStatefulSetForWeblogicServer x memoryClientset server service
          (CreateStatefulSetForWeblogicServer x memoryClientset server service w).2).2.cluster =
        (CreateStatefulSetForWeblogicServer x memoryClientset server service w).2.cluster ∧
      (countStatefulSets x server w.cluster ≤ 1 →
        countStatefulSets x server
          (CreateStatefulSetForWeblogicServer x memoryClientset server service
            (CreateStatefulSetForWeblogicServer x memoryClientset server service w).2).2.cluster
          = 1)) :=
  ⟨CreateServiceForWeblogicServer_twice x server w,
    CreateStatefulSetForWeblogicServer_twice x server service w htemplate⟩

/-- Find-or-create twice for `web1` over the empty cluster. -/
theorem find_or_create_twice_witness :
    HasServerNameLabel sampleExternals
      (sampleExternals.statefulsetsNewForServer web1
        (servicesNewForServer sampleExternals web1).Name).Labels web1.Name = true ∧
    countServices sampleExternals web1 emptyWorld.cluster ≤ 1 ∧
    countServices sampleExternals web1
      (CreateServiceForWeblogicServer sampleExternals memoryClientset web1
        (CreateServiceForWeblogicServer sampleExternals memoryClientset web1
          emptyWorld).2).2.cluster = 1 ∧
    countStatefulSets sampleExternals web1 emptyWorld.cluster ≤ 1 ∧
    countStatefulSets sampleExternals web1
      (CreateStatefulSetForWeblogicServer sampleExternals memoryClientset web1
        (servicesNewForServer sampleExternals web1)
        (CreateStatefulSetForWeblogicServer sampleExternals memoryClientset web1
          (servicesNewForServer sampleExternals web1) emptyWorld).2).2.cluster = 1 :=
  ⟨rfl, by decide,
    (find_or_create_twice sampleExternals web1 (servicesNewForServer sampleExternals web1)
      emptyWorld rfl).1.2.2.2 (by decide),
    by decide,
    (find_or_create_twice sampleExternals web1 (servicesNewForServer sampleExternals web1)
      emptyWorld rfl).2.2.2.2 (by decide)⟩

/-! ## Defaults of the domain -/

/-- C11. Evaluation at a domain declared with version "12.2.1.3", two managed servers and
three replicas: none of the three fields was omitted, so the claim, like the comment on
`EnsureDefaults`, has all three kept; the code keeps the version and the managed-server
count and overwrites the replica count with 1. -/
theorem EnsureDefaults_overwrites_replicas :
    scaledDomain.Spec.Replicas = 3 ∧
    scaledDomain.Spec.Replicas ≠ 0 ∧
    scaledDomain.EnsureDefaults.Spec.Replicas = 1 ∧
    scaledDomain.EnsureDefaults.Spec.Replicas ≠ scaledDomain.Spec.Replicas ∧
    scaledDomain.EnsureDefaults.Spec.Version = scaledDomain.Spec.Version ∧
    scaledDomain.EnsureDefaults.Spec.ManagedServerCount =
      scaledDomain.Spec.ManagedServerCount := by
  refine ⟨?_, ?_, ?_, ?_, ?_, ?_⟩ <;> decide

/-- Where `EnsureDefaults` does what its comment says: the version is "12.2.1.2" if it
was empty and otherwise unchanged, the managed-server count is 1 if it was 0 and otherwise
unchanged, the replica count is 1 if it was 0 and unchanged if it was neither 0 nor above
1, and every other field of the domain is as it was. -/
theorem EnsureDefaults_keeps_set_fields (c : WebLogicDomain) :
    c.EnsureDefaults.Spec.Version =
      (if c.Spec.Version = "" then "12.2.1.2" else c.Spec.Version) ∧
    c.EnsureDefaults.Spec.ManagedServerCount =
      (if c.Spec.ManagedServerCount = 0 then 1 else c.Spec.ManagedServerCount) ∧
    (c.Spec.Replicas = 0 → c.EnsureDefaults.Spec.Replicas = 1) ∧
    (c.Spec.Replicas ≠ 0 → c.Spec.Replicas ≤ 1 →
      c.EnsureDefaults.Spec.Replicas = c.Spec.Replicas) ∧
    c.EnsureDefaults =
      { c with
        Spec :=
          { c.Spec with
            Version := c.EnsureDefaults.Spec.Version
            Replicas := c.EnsureDefaults.Spec.Replicas
            ManagedServerCount := c.EnsureDefaults.Spec.ManagedServerCount } } := by
  simp only [WebLogicDomain.EnsureDefaults, defaultDomainVersion, defaultDomainReplicas,
    defaultDomainManagedServerCount]
  by_cases hm : c.Spec.ManagedServerCount = 0 <;>
    by_cases hv : c.Spec.Version = "" <;>
    by_cases hr : c.Spec.Replicas = 0 ∨ 1 < c.Spec.Replicas <;>
    simp [hm, hv, hr] <;> omega

end Weblogic
